import Mathlib

/-!
Shallow embedding of `src/website_monitor.py` (WebsiteMonitor class).

Python strings are modelled as `List Char` (sequences of code points, matching
Python string indexing and slicing). The external collaborators of the program
are modelled as an environment record `Env`:
  - `fetch` stands for `get_website_content` (HTTP + BeautifulSoup extraction):
    it returns the pair `(text_content, page_title)`; a transport or processing
    failure is the pair `("", error title)`, exactly the value the except
    branches of `get_website_content` return;
  - `hashFn` stands for `hashlib.md5(...).hexdigest()` used by
    `calculate_content_hash`: an arbitrary deterministic digest function
    (the claims use it only as an equality test);
  - `oracle` stands for the Groq chat-completion endpoint: given the message
    list that `compare_with_ai` builds, it returns either the reply text or a
    raised exception message (any exception inside the try block of
    `compare_with_ai`, including a malformed reply, is the failure case);
  - `clock` stands for the stream of `datetime.now().isoformat()` values: the
    k-th call of `datetime.now()` during a run returns `clock k`. Nothing is
    assumed about the stream; consecutive readings may or may not be equal.

Side effects of `monitor_websites` (`time.sleep(1)`, the oracle call, the final
`save_stored_data`) are recorded in an explicit event trace.
-/

set_option autoImplicit false

namespace WebScan

/-- One stored record of `website_storage.json`, with exactly the five fields
that `monitor_websites` writes (source lines 232-238 and 256-261). -/
structure SiteRecord where
  content : List Char
  hash : List Char
  title : List Char
  last_updated : List Char
  first_seen : List Char
deriving DecidableEq, Repr

/-- The persisted mapping from URL to record (`stored_data`), a Python dict
modelled as an insertion-ordered association list. -/
abbrev Store := List (List Char × SiteRecord)

/-- Dict lookup `stored_data[url]` / membership `url in stored_data`. -/
def storeFind : Store → List Char → Option SiteRecord
  | [], _ => none
  | (k, v) :: rest, u => if k = u then some v else storeFind rest u

/-- Dict assignment `stored_data[url] = record` (overwrites an existing key,
otherwise appends, as a Python dict does). -/
def storeSet : Store → List Char → SiteRecord → Store
  | [], u, r => [(u, r)]
  | (k, v) :: rest, u, r => if k = u then (u, r) :: rest else (k, v) :: storeSet rest u r

/-- The state of the storage file when `load_stored_data` runs, with one
constructor per behaviourally distinct case of the Python runtime:
the file is missing; the file exists but its bytes are not valid UTF-8
(the file was opened with `encoding='utf-8'`, so the read inside `json.load`
raises `UnicodeDecodeError`); the bytes decode as UTF-8 but JSON parsing
fails (`json.JSONDecodeError`); opening or reading fails with an IO error;
or the file is valid with the given parsed contents. The cases are disjoint
by construction. -/
inductive StorageFile where
  | missing
  | invalidUtf8
  | jsonDecodeError
  | ioError
  | valid (d : Store)

/-- What a call of `load_stored_data` does: return a mapping, or let an
exception escape (identified by the name of the exception class). -/
inductive LoadOutcome where
  | raised (err : List Char)
  | returned (d : Store)
deriving DecidableEq, Repr

/-- `load_stored_data` (source lines 115-124): a missing file returns `{}`;
`json.JSONDecodeError` and `IOError` are caught by the except clause on
line 121 and return `{}`; a valid file returns the parsed mapping. A file
whose bytes are not valid UTF-8 makes the read inside `json.load` raise
`UnicodeDecodeError` — a `ValueError` that is neither a `json.JSONDecodeError`
nor an `IOError` — so the except clause does not catch it and the exception
propagates out of the function. -/
def load_stored_data : StorageFile → LoadOutcome
  | .missing => .returned []
  | .invalidUtf8 => .raised "UnicodeDecodeError".data
  | .jsonDecodeError => .returned []
  | .ioError => .returned []
  | .valid d => .returned d

/-- One chat message of the Groq request. -/
structure ChatMessage where
  role : List Char
  content : List Char
deriving DecidableEq, Repr

/-- Result of the oracle call: the reply text of
`chat_completion.choices[0].message.content`, or the message of an exception
raised inside the try block of `compare_with_ai`. -/
inductive OracleReply where
  | success (text : List Char)
  | failure (errMsg : List Char)

/-- The external collaborators of the monitor (see the module docstring). -/
structure Env where
  fetch : List Char → List Char × List Char
  hashFn : List Char → List Char
  oracle : List ChatMessage → OracleReply
  clock : Nat → List Char

/-- `max_chars = 8000` (source line 150). -/
def max_chars : Nat := 8000

/-- The ellipsis marker appended on truncation (source lines 151-152). -/
def ellipsis : List Char := "...".data

/-- The truncation expression of `compare_with_ai` (source lines 151-152):
`content[:max_chars] + "..." if len(content) > max_chars else content`. -/
def truncateContent (s : List Char) : List Char :=
  if s.length > max_chars then s.take max_chars ++ ellipsis else s

/-- The system message of the Groq request (source line 183). -/
def sysMsgContent : List Char :=
  "You are a helpful assistant that analyzes website changes and provides concise summaries. Always respond with a single bullet point starting with the website name.".data

/-- The user prompt of `compare_with_ai` (source lines 154-177), with the
f-string interpolations made explicit. -/
def buildPrompt (site_title url old_truncated new_truncated : List Char) : List Char :=
  "\nYou are analyzing changes between two versions of a website. \nWebsite: ".data
    ++ site_title ++ " (".data ++ url
    ++ ")\n\nPlease compare the old and new content and provide a concise summary of changes in this exact format:\n- [Website Name]: [Brief description of changes]\n\nIf there are no meaningful changes, respond with:\n- [Website Name]: No significant updates detected.\n\nFocus on:\n1. New articles, posts, or content sections\n2. Updated information or announcements  \n3. New features or functionality\n4. Removed content (if significant)\n\nIgnore minor formatting changes, timestamps, or navigation updates.\n\nOLD CONTENT:\n".data
    ++ old_truncated
    ++ "\n\nNEW CONTENT:\n".data
    ++ new_truncated
    ++ "\n".data

/-- The message list `compare_with_ai` submits to the oracle
(source lines 179-189): the fixed system message and the user prompt built
from the independently truncated old and new text. -/
def oracleMessages (url old_content new_content site_title : List Char) : List ChatMessage :=
  [⟨"system".data, sysMsgContent⟩,
   ⟨"user".data, buildPrompt site_title url (truncateContent old_content) (truncateContent new_content)⟩]

/-- Python `str.strip()` applied to the oracle reply (source line 195). -/
def pyStrip (l : List Char) : List Char :=
  ((l.dropWhile Char.isWhitespace).reverse.dropWhile Char.isWhitespace).reverse

/-- `compare_with_ai` (source lines 135-205): truncate both texts, build the
prompt, call the oracle; on success strip the reply and prepend a bullet
marker when it does not already start with one (the startswith check);
on any exception return the bullet error line of the except branch.
The function is total: no exception escapes it. -/
def compare_with_ai (env : Env) (url old_content new_content site_title : List Char) : List Char :=
  match env.oracle (oracleMessages url old_content new_content site_title) with
  | .success text =>
      let response := pyStrip text
      if response.head? = some '-' then response else "- ".data ++ response
  | .failure e =>
      "- ".data ++ site_title ++ ": Error analyzing changes - ".data ++ e

/-- Observable side effects of one run of `monitor_websites`. -/
inductive Event where
  | fetch (url : List Char)
  | oracle (url old_content new_content site_title : List Char)
  | sleep
  | save (data : Store)
deriving DecidableEq, Repr

/-- Outcome of one iteration of the `for url in websites` loop body
(source lines 220-263): the updated `stored_data`, the single line appended to
`results`, the events of the iteration, and the number of `datetime.now()`
calls consumed so far. -/
structure StepResult where
  store : Store
  line : List Char
  events : List Event
  clk : Nat
deriving DecidableEq, Repr

/-- The body of the `for url in websites` loop of `monitor_websites`
(source lines 220-263). Empty fetched content hits the `continue` on line 227,
which skips the rest of the body including `time.sleep(1)` on line 263.
In the baseline branch the dict literal evaluates `datetime.now()` for
`last_updated` (line 236) before the one for `first_seen` (line 237),
so `last_updated` takes clock reading `clk` and `first_seen` takes `clk + 1`. -/
def processUrl (env : Env) (stored : Store) (clk : Nat) (url : List Char) : StepResult :=
  let fc := env.fetch url
  let current_content := fc.1
  let site_title := fc.2
  if current_content = [] then
    ⟨stored, "- ".data ++ url ++ ": Failed to fetch content".data, [.fetch url], clk⟩
  else
    let current_hash := env.hashFn current_content
    match storeFind stored url with
    | none =>
        let newRec : SiteRecord :=
          { content := current_content
            hash := current_hash
            title := site_title
            last_updated := env.clock clk
            first_seen := env.clock (clk + 1) }
        ⟨storeSet stored url newRec,
         "- ".data ++ site_title ++ ": Added to monitoring (baseline established)".data,
         [.fetch url, .sleep], clk + 2⟩
    | some r =>
        if current_hash = r.hash then
          ⟨stored, "- ".data ++ site_title ++ ": No updates detected".data,
           [.fetch url, .sleep], clk⟩
        else
          let change_summary := compare_with_ai env url r.content current_content site_title
          let updRec : SiteRecord :=
            { content := current_content
              hash := current_hash
              title := site_title
              last_updated := env.clock clk
              first_seen := r.first_seen }
          ⟨storeSet stored url updRec, change_summary,
           [.fetch url, .oracle url r.content current_content site_title, .sleep], clk + 1⟩

/-- Accumulated outcome of the whole `for` loop. -/
structure LoopResult where
  store : Store
  lines : List (List Char)
  events : List Event
  clk : Nat
deriving DecidableEq, Repr

/-- The `for url in websites` loop of `monitor_websites`, iterated via
`processUrl`. -/
def monitorLoop (env : Env) : List (List Char) → Store → Nat → LoopResult
  | [], stored, clk => ⟨stored, [], [], clk⟩
  | url :: rest, stored, clk =>
      let step := processUrl env stored clk url
      let restR := monitorLoop env rest step.store step.clk
      ⟨restR.store, step.line :: restR.lines, step.events ++ restR.events, restR.clk⟩

/-- Result of `monitor_websites`: the returned list of result lines, the final
in-memory `stored_data`, and the event trace of the run. -/
structure MonitorResult where
  results : List (List Char)
  store : Store
  trace : List Event
deriving DecidableEq, Repr

/-- The body of `monitor_websites` after the load on line 217 has returned a
mapping: run the loop over the URL list, then always call `save_stored_data`
on the final mapping (line 265). -/
def monitorRun (env : Env) (stored_data : Store) (websites : List (List Char)) : MonitorResult :=
  let loopR := monitorLoop env websites stored_data 0
  ⟨loopR.lines, loopR.store, loopR.events ++ [.save loopR.store]⟩

/-- `monitor_websites` (source lines 207-267): call `load_stored_data`
(line 217) and run the batch on the returned mapping. The function has no
try block of its own, so an exception raised by the load propagates out of
`monitor_websites` unchanged. -/
def monitor_websites (env : Env) (fs : StorageFile) (websites : List (List Char)) :
    Except (List Char) MonitorResult :=
  match load_stored_data fs with
  | .raised e => .error e
  | .returned stored_data => .ok (monitorRun env stored_data websites)

/-! ### Helper lemmas about the store -/

theorem ellipsis_length : ellipsis.length = 3 := rfl

theorem storeFind_storeSet (s : Store) (u v : List Char) (r : SiteRecord) :
    storeFind (storeSet s u r) v = if v = u then some r else storeFind s v := by
  induction s with
  | nil =>
      simp only [storeSet, storeFind]
      by_cases h : u = v
      · rw [if_pos h, if_pos h.symm]
      · rw [if_neg h, if_neg (fun hv => h hv.symm)]
  | cons p rest ih =>
      obtain ⟨k, w⟩ := p
      simp only [storeSet]
      by_cases hk : k = u
      · subst hk
        simp only [if_pos rfl, storeFind]
        by_cases h : k = v
        · rw [if_pos h, if_pos h.symm]
        · rw [if_neg h, if_neg (fun hv => h hv.symm), if_neg h]
      · rw [if_neg hk]
        simp only [storeFind, ih]
        by_cases h : k = v
        · subst h
          rw [if_pos rfl, if_neg (fun hvu : k = u => hk hvu), if_pos rfl]
        · rw [if_neg h]
          by_cases hvu : v = u
          · rw [if_pos hvu, if_pos hvu]
          · rw [if_neg hvu, if_neg hvu, if_neg h]

/-! ### Concrete test environments used by witnesses and counterexamples -/

/-- A deterministic clock stream with pairwise distinct readings for the first
ten calls. -/
def tick (n : Nat) : List Char :=
  ['t', Char.ofNat (48 + n)]

def uA : List Char := "http://a".data

/-- Environment where every fetch succeeds with fixed content, the digest is
the identity function, and the oracle replies without a bullet marker. -/
def cenvNew : Env :=
  { fetch := fun _ => ("hello".data, "T".data)
    hashFn := fun c => c
    oracle := fun _ => .success "ok".data
    clock := tick }

def u1 : List Char := "http://one".data

def u2 : List Char := "http://two".data

/-- Environment where fetching `u1` fails (empty extracted text) and fetching
any other URL succeeds with content `"x"` and title `"T"`. -/
def cenv8 : Env :=
  { fetch := fun u => if u = u1 then ([], "Error fetching: boom".data) else ("x".data, "T".data)
    hashFn := fun c => c
    oracle := fun _ => .success "ok".data
    clock := tick }

/-- Environment whose oracle always raises. -/
def cenvFail : Env :=
  { fetch := fun _ => ("x".data, "T".data)
    hashFn := fun c => c
    oracle := fun _ => .failure "boom".data
    clock := tick }

/-- A stored record whose hash equals the digest of the content `cenv8`
fetches for `u2`. -/
def recB : SiteRecord :=
  ⟨"x".data, "x".data, "Told".data, ['t', '9'], ['t', '8']⟩

def storeB : Store := [(u2, recB)]

/-- A stored record whose hash differs from the digest of the content `cenv8`
fetches for `u2`. -/
def recC : SiteRecord :=
  ⟨"old".data, "old".data, "Told".data, ['t', '9'], ['t', '8']⟩

def storeC : Store := [(u2, recC)]

/-! ### Claim theorems -/

/-- C9 counterexample: a storage file whose bytes are not valid UTF-8 is
corrupt, undecodable content, yet `load_stored_data` raises on it: the read
inside `json.load` raises `UnicodeDecodeError`, which the
`except (json.JSONDecodeError, IOError)` clause on line 121 does not catch —
refuting the claim that the function never raises on corrupt contents. -/
theorem C9_counterexample :
    load_stored_data .invalidUtf8 = .raised "UnicodeDecodeError".data := rfl

/-- C9 (amended): `load_stored_data` returns the empty mapping, without
raising, when the storage file is missing, when its contents decode as UTF-8
but fail JSON parsing, and when reading raises an IO error; a valid stored
file is returned as the persisted mapping; but a file whose bytes are not
valid UTF-8 raises an uncaught `UnicodeDecodeError`. -/
theorem C9_load_error_paths :
    load_stored_data .missing = .returned [] ∧
    load_stored_data .jsonDecodeError = .returned [] ∧
    load_stored_data .ioError = .returned [] ∧
    (∀ d, load_stored_data (.valid d) = .returned d) ∧
    load_stored_data .invalidUtf8 = .raised "UnicodeDecodeError".data :=
  ⟨rfl, rfl, rfl, fun _ => rfl, rfl⟩

/-- C10: when `get_website_content` returns empty text for a URL, the loop
body emits the line `- <url>: Failed to fetch content` (keyed by the URL, not
the title), leaves the store entirely untouched, consumes no clock reading,
and records no store or oracle activity for that URL. -/
theorem C10_fetch_failure_no_store_touch (env : Env) (stored : Store) (clk : Nat)
    (url : List Char) (h : (env.fetch url).1 = []) :
    processUrl env stored clk url =
      ⟨stored, "- ".data ++ url ++ ": Failed to fetch content".data, [Event.fetch url], clk⟩ := by
  simp only [processUrl]
  rw [if_pos h]

/-- Witness for C10 at a concrete input: fetching `u1` in `cenv8` yields empty
content. -/
theorem C10_witness :
    processUrl cenv8 [] 0 u1 =
      ⟨[], "- ".data ++ u1 ++ ": Failed to fetch content".data, [Event.fetch u1], 0⟩ :=
  C10_fetch_failure_no_store_touch cenv8 [] 0 u1 (by decide)

/-- C2: when the URL is present in the store and the freshly computed digest
equals the stored one, the loop body emits the `No updates detected` bullet,
records no oracle invocation, and returns the store unchanged — in particular
the `last_updated` field of the record is not refreshed and no clock reading
is consumed. -/
theorem C2_unchanged_no_oracle_no_write (env : Env) (stored : Store) (clk : Nat)
    (url : List Char) (r : SiteRecord)
    (hmem : storeFind stored url = some r)
    (hne : (env.fetch url).1 ≠ [])
    (hhash : env.hashFn (env.fetch url).1 = r.hash) :
    processUrl env stored clk url =
      ⟨stored, "- ".data ++ (env.fetch url).2 ++ ": No updates detected".data,
       [Event.fetch url, Event.sleep], clk⟩ := by
  simp only [processUrl]
  rw [if_neg hne, hmem]
  simp only [if_pos hhash]

/-- Witness for C2 at a concrete input: `u2` is stored in `storeB` with a
matching digest under `cenv8`. -/
theorem C2_witness :
    processUrl cenv8 storeB 0 u2 =
      ⟨storeB, "- ".data ++ (cenv8.fetch u2).2 ++ ": No updates detected".data,
       [Event.fetch u2, Event.sleep], 0⟩ :=
  C2_unchanged_no_oracle_no_write cenv8 storeB 0 u2 recB (by decide) (by decide) (by decide)

/-- C7: when the URL is present in the store and the freshly computed digest
differs from the stored one, the loop body invokes `compare_with_ai` exactly
once with the stored old text and the fetched new text, emits the returned
bullet, and overwrites the stored content, hash, title and `last_updated`
while keeping `first_seen` from the old record. -/
theorem C7_changed_oracle_once_first_seen_kept (env : Env) (stored : Store) (clk : Nat)
    (url : List Char) (r : SiteRecord)
    (hmem : storeFind stored url = some r)
    (hne : (env.fetch url).1 ≠ [])
    (hdiff : env.hashFn (env.fetch url).1 ≠ r.hash) :
    processUrl env stored clk url =
      ⟨storeSet stored url
         ⟨(env.fetch url).1, env.hashFn (env.fetch url).1, (env.fetch url).2,
          env.clock clk, r.first_seen⟩,
       compare_with_ai env url r.content (env.fetch url).1 (env.fetch url).2,
       [Event.fetch url,
        Event.oracle url r.content (env.fetch url).1 (env.fetch url).2,
        Event.sleep], clk + 1⟩ := by
  simp only [processUrl]
  rw [if_neg hne, hmem]
  simp only [if_neg hdiff]

/-- Witness for C7 at a concrete input: `u2` is stored in `storeC` with a
stale digest under `cenv8`. -/
theorem C7_witness :
    processUrl cenv8 storeC 0 u2 =
      ⟨storeSet storeC u2
         ⟨(cenv8.fetch u2).1, cenv8.hashFn (cenv8.fetch u2).1, (cenv8.fetch u2).2,
          cenv8.clock 0, recC.first_seen⟩,
       compare_with_ai cenv8 u2 recC.content (cenv8.fetch u2).1 (cenv8.fetch u2).2,
       [Event.fetch u2,
        Event.oracle u2 recC.content (cenv8.fetch u2).1 (cenv8.fetch u2).2,
        Event.sleep], 1⟩ :=
  C7_changed_oracle_once_first_seen_kept cenv8 storeC 0 u2 recC (by decide) (by decide) (by decide)

/-- C1 counterexample: in the baseline branch the dict literal evaluates
`datetime.now()` separately for `last_updated` and for `first_seen`, so with a
clock whose consecutive readings differ the created record has
`first_seen ≠ last_updated`, refuting the claimed equality. Concretely, a
first-time URL under `cenvNew` gets `last_updated = t0` and
`first_seen = t1`. -/
theorem C1_counterexample :
    monitor_websites cenvNew .missing [uA] = .ok (monitorRun cenvNew [] [uA]) ∧
    storeFind (monitorRun cenvNew [] [uA]).store uA =
      some ⟨"hello".data, "hello".data, "T".data, ['t', '0'], ['t', '1']⟩ ∧
    (⟨"hello".data, "hello".data, "T".data, ['t', '0'], ['t', '1']⟩ : SiteRecord).first_seen ≠
      (⟨"hello".data, "hello".data, "T".data, ['t', '0'], ['t', '1']⟩ : SiteRecord).last_updated := by
  refine ⟨rfl, ?_, ?_⟩
  · decide
  · decide

/-- C1 (amended): a URL absent from the store whose fetch returns non-empty
content yields the `Added to monitoring` bullet and exactly one new store
record; the record takes `last_updated` from the first clock reading consumed
and `first_seen` from the following one, so the two fields are equal exactly
when those two consecutive clock readings coincide. -/
theorem C1_new_url_baseline (env : Env) (stored : Store) (clk : Nat) (url : List Char)
    (habs : storeFind stored url = none)
    (hne : (env.fetch url).1 ≠ []) :
    processUrl env stored clk url =
      ⟨storeSet stored url
         ⟨(env.fetch url).1, env.hashFn (env.fetch url).1, (env.fetch url).2,
          env.clock clk, env.clock (clk + 1)⟩,
       "- ".data ++ (env.fetch url).2 ++ ": Added to monitoring (baseline established)".data,
       [Event.fetch url, Event.sleep], clk + 2⟩ ∧
    (env.clock (clk + 1) = env.clock clk →
      (⟨(env.fetch url).1, env.hashFn (env.fetch url).1, (env.fetch url).2,
        env.clock clk, env.clock (clk + 1)⟩ : SiteRecord).first_seen =
      (⟨(env.fetch url).1, env.hashFn (env.fetch url).1, (env.fetch url).2,
        env.clock clk, env.clock (clk + 1)⟩ : SiteRecord).last_updated) := by
  constructor
  · simp only [processUrl]
    rw [if_neg hne, habs]
  · intro hc
    exact hc

/-- Witness for C1 at a concrete input: `uA` is new under `cenvNew` and the
store that results from its baseline creation. -/
theorem C1_witness :
    processUrl cenvNew [] 0 uA =
      ⟨storeSet [] uA
         ⟨(cenvNew.fetch uA).1, cenvNew.hashFn (cenvNew.fetch uA).1, (cenvNew.fetch uA).2,
          cenvNew.clock 0, cenvNew.clock 1⟩,
       "- ".data ++ (cenvNew.fetch uA).2 ++ ": Added to monitoring (baseline established)".data,
       [Event.fetch uA, Event.sleep], 2⟩ :=
  (C1_new_url_baseline cenvNew [] 0 uA rfl (by decide)).1

/-- C3 counterexample: for a text one character over the budget, the
truncation of `compare_with_ai` produces `text[:8000] + "..."`, whose length
is 8003 — strictly more than the configured budget `max_chars = 8000`, so the
submitted text is not bounded by the budget. -/
theorem C3_counterexample :
    max_chars < (truncateContent (List.replicate (max_chars + 1) 'a')).length := by
  have hlen : (List.replicate (max_chars + 1) 'a').length = max_chars + 1 :=
    List.length_replicate _ _
  rw [truncateContent, if_pos (by rw [hlen]; exact Nat.lt_succ_self _)]
  rw [List.length_append, List.length_take, hlen, ellipsis_length]
  simp [max_chars]

/-- C3 (amended): `compare_with_ai` truncates each text independently to the
`max_chars` budget, appending the ellipsis marker exactly when the text
exceeds the budget; a text at or under the budget is submitted unchanged, and
every submitted text is bounded by the budget plus the three-character
ellipsis marker. -/
theorem C3_truncation_independent_bounded (t : List Char) :
    (truncateContent t).length ≤ max_chars + ellipsis.length ∧
    (t.length ≤ max_chars → truncateContent t = t) ∧
    (max_chars < t.length → truncateContent t = t.take max_chars ++ ellipsis) ∧
    ∀ url old_content new_content site_title,
      oracleMessages url old_content new_content site_title =
        [⟨"system".data, sysMsgContent⟩,
         ⟨"user".data, buildPrompt site_title url
            (truncateContent old_content) (truncateContent new_content)⟩] := by
  refine ⟨?_, ?_, ?_, fun _ _ _ _ => rfl⟩
  · rw [truncateContent]
    by_cases h : t.length > max_chars
    · rw [if_pos h, List.length_append, List.length_take]
      exact Nat.add_le_add_right (Nat.min_le_left _ _) _
    · rw [if_neg h]
      exact Nat.le_trans (Nat.le_of_not_lt h) (Nat.le_add_right _ _)
  · intro h
    rw [truncateContent, if_neg (Nat.not_lt.mpr h)]
  · intro h
    rw [truncateContent, if_pos h]

/-- Witness for C3 at concrete inputs: a two-character text is submitted
unchanged, and a text one character over budget is truncated with the
ellipsis appended. -/
theorem C3_witness :
    truncateContent "ab".data = "ab".data ∧
    truncateContent (List.replicate (max_chars + 1) 'a') =
      (List.replicate (max_chars + 1) 'a').take max_chars ++ ellipsis := by
  constructor
  · exact (C3_truncation_independent_bounded "ab".data).2.1 (by decide)
  · refine (C3_truncation_independent_bounded _).2.2.1 ?_
    rw [List.length_replicate]
    exact Nat.lt_succ_self _

/-- C4: every line `compare_with_ai` returns starts with the bullet marker
`-`: a stripped oracle reply that does not start with one gets `- ` prepended,
and when the oracle raises, the returned line is the bullet embedding the site
title and the error description; the function is total, so no exception
reaches the orchestrator. -/
theorem C4_reply_always_bullet (env : Env) (url old_content new_content site_title : List Char) :
    (compare_with_ai env url old_content new_content site_title).head? = some '-' ∧
    (∀ e, env.oracle (oracleMessages url old_content new_content site_title) = .failure e →
      compare_with_ai env url old_content new_content site_title =
        "- ".data ++ site_title ++ ": Error analyzing changes - ".data ++ e) := by
  constructor
  · rw [compare_with_ai]
    rcases hres : env.oracle (oracleMessages url old_content new_content site_title) with text | e
    · simp only
      by_cases hh : (pyStrip text).head? = some '-'
      · rw [if_pos hh]
        exact hh
      · rw [if_neg hh]
        rfl
    · rfl
  · intro e he
    rw [compare_with_ai, he]

/-- Witness for C4 at a concrete input: the failing oracle of `cenvFail`. -/
theorem C4_witness :
    (compare_with_ai cenvFail "u".data "o".data "n".data "T".data).head? = some '-' ∧
    compare_with_ai cenvFail "u".data "o".data "n".data "T".data =
      "- ".data ++ "T".data ++ ": Error analyzing changes - ".data ++ "boom".data :=
  ⟨(C4_reply_always_bullet cenvFail "u".data "o".data "n".data "T".data).1,
   (C4_reply_always_bullet cenvFail "u".data "o".data "n".data "T".data).2 "boom".data rfl⟩

/-- C8 counterexample: the `continue` taken on a fetch failure skips
`time.sleep(1)`, so no delay separates a failed URL from the next one. In the
concrete run below the trace shows the fetch of `u2` immediately after the
failed fetch of `u1`, with no sleep event between them; the only sleep of the
run follows the successful processing of `u2`. -/
theorem C8_counterexample :
    monitor_websites cenv8 .missing [u1, u2] = .ok (monitorRun cenv8 [] [u1, u2]) ∧
    (monitorRun cenv8 [] [u1, u2]).trace =
      [Event.fetch u1, Event.fetch u2, Event.sleep,
       Event.save [(u2, ⟨"x".data, "x".data, "T".data, ['t', '0'], ['t', '1']⟩)]] ∧
    (monitorRun cenv8 [] [u1, u2]).trace.take 2 =
      [Event.fetch u1, Event.fetch u2] := by
  refine ⟨rfl, ?_, ?_⟩
  · decide
  · decide

/-- C8 (amended): the loop body ends with the fixed delay after every URL
whose fetch returned non-empty content, whatever the outcome (new, unchanged
or changed), but performs no delay at all for a URL whose fetch returned
empty content, because the `continue` bypasses `time.sleep(1)`. -/
theorem C8_sleep_iff_fetch_succeeded (env : Env) (stored : Store) (clk : Nat) (url : List Char) :
    ((env.fetch url).1 ≠ [] →
      (processUrl env stored clk url).events.getLast? = some Event.sleep) ∧
    ((env.fetch url).1 = [] →
      Event.sleep ∉ (processUrl env stored clk url).events) := by
  constructor
  · intro hne
    simp only [processUrl]
    rw [if_neg hne]
    rcases storeFind stored url with _ | r
    · rfl
    · by_cases hh : env.hashFn (env.fetch url).1 = r.hash
      · simp only [if_pos hh]
        rfl
      · simp only [if_neg hh]
        rfl
  · intro he
    simp only [processUrl]
    rw [if_pos he]
    simp

/-- Witness for C8 at concrete inputs: under `cenv8` the successful URL `u2`
ends with a sleep event and the failing URL `u1` produces none. -/
theorem C8_witness :
    (processUrl cenv8 [] 0 u2).events.getLast? = some Event.sleep ∧
    Event.sleep ∉ (processUrl cenv8 [] 0 u1).events :=
  ⟨(C8_sleep_iff_fetch_succeeded cenv8 [] 0 u2).1 (by decide),
   (C8_sleep_iff_fetch_succeeded cenv8 [] 0 u1).2 (by decide)⟩

/-- One loop iteration either leaves the record of a given key as it was, or writes
a record whose hash field is the digest of its content field (both write
branches of the source set `hash` to `calculate_content_hash` of the very
content they store). -/
theorem processUrl_hash_inv (env : Env) (stored : Store) (clk : Nat)
    (url v : List Char) (rec : SiteRecord)
    (h : storeFind (processUrl env stored clk url).store v = some rec) :
    storeFind stored v = some rec ∨ rec.hash = env.hashFn rec.content := by
  simp only [processUrl] at h
  by_cases hfe : (env.fetch url).1 = []
  · rw [if_pos hfe] at h
    exact Or.inl h
  · rw [if_neg hfe] at h
    rcases hfind : storeFind stored url with _ | r
    · rw [hfind] at h
      simp only at h
      rw [storeFind_storeSet] at h
      by_cases hv : v = url
      · rw [if_pos hv] at h
        cases h
        exact Or.inr rfl
      · rw [if_neg hv] at h
        exact Or.inl h
    · rw [hfind] at h
      simp only at h
      by_cases hh : env.hashFn (env.fetch url).1 = r.hash
      · rw [if_pos hh] at h
        exact Or.inl h
      · rw [if_neg hh] at h
        simp only at h
        rw [storeFind_storeSet] at h
        by_cases hv : v = url
        · rw [if_pos hv] at h
          cases h
          exact Or.inr rfl
        · rw [if_neg hv] at h
          exact Or.inl h

/-- Loop-wide version of `processUrl_hash_inv`, by induction over the URL
list. -/
theorem monitorLoop_hash_inv (env : Env) (ws : List (List Char)) :
    ∀ (stored : Store) (clk : Nat) (v : List Char) (rec : SiteRecord),
      storeFind (monitorLoop env ws stored clk).store v = some rec →
      storeFind stored v = some rec ∨ rec.hash = env.hashFn rec.content := by
  induction ws with
  | nil =>
      intro stored clk v rec h
      exact Or.inl h
  | cons url rest ih =>
      intro stored clk v rec h
      simp only [monitorLoop] at h
      rcases ih _ _ _ _ h with h2 | h2
      · exact processUrl_hash_inv env stored clk url v rec h2
      · exact Or.inr h2

/-- C5: in every run whose load returned a mapping, every record of the final
store either came unchanged from the loaded store or was written this run by
one of the two write paths (baseline creation, changed-path update), and
every written record satisfies `hash = calculate_content_hash content`, the
digest recomputed at observation time from the very content stored alongside
it. -/
theorem C5_written_records_hash_invariant (env : Env) (fs : StorageFile)
    (websites : List (List Char)) (url : List Char) (rec : SiteRecord) (d : Store)
    (hload : load_stored_data fs = .returned d)
    (h : storeFind (monitorRun env d websites).store url = some rec) :
    monitor_websites env fs websites = .ok (monitorRun env d websites) ∧
    (storeFind d url = some rec ∨ rec.hash = env.hashFn rec.content) := by
  constructor
  · rw [monitor_websites, hload]
  · exact monitorLoop_hash_inv env websites d 0 url rec h

/-- Witness for C5 at a concrete input: the record created for `uA` in a run
over an initially missing store. -/
theorem C5_witness :
    monitor_websites cenvNew .missing [uA] = .ok (monitorRun cenvNew [] [uA]) ∧
    (storeFind ([] : Store) uA =
       some ⟨"hello".data, "hello".data, "T".data, ['t', '0'], ['t', '1']⟩ ∨
     (⟨"hello".data, "hello".data, "T".data, ['t', '0'], ['t', '1']⟩ : SiteRecord).hash =
       cenvNew.hashFn (⟨"hello".data, "hello".data, "T".data, ['t', '0'], ['t', '1']⟩ : SiteRecord).content) :=
  C5_written_records_hash_invariant cenvNew .missing [uA] uA
    ⟨"hello".data, "hello".data, "T".data, ['t', '0'], ['t', '1']⟩ [] rfl (by decide)

/-- The loop produces exactly one result line per input URL. -/
theorem monitorLoop_length (env : Env) (ws : List (List Char)) :
    ∀ (stored : Store) (clk : Nat),
      (monitorLoop env ws stored clk).lines.length = ws.length := by
  induction ws with
  | nil =>
      intro stored clk
      rfl
  | cons url rest ih =>
      intro stored clk
      simp only [monitorLoop, List.length_cons, ih]

/-- C6: in every run whose load returned a mapping, the batch completes —
`monitor_websites` returns exactly one result line per input URL (a failing
URL contributes its degraded line and processing continues), and the trace
always ends with the save of the final store, so persistence of all
successfully updated records is attempted. -/
theorem C6_batch_completes_and_saves (env : Env) (fs : StorageFile)
    (websites : List (List Char)) (d : Store)
    (hload : load_stored_data fs = .returned d) :
    monitor_websites env fs websites = .ok (monitorRun env d websites) ∧
    (monitorRun env d websites).results.length = websites.length ∧
    (monitorRun env d websites).trace =
      (monitorLoop env websites d 0).events ++
        [Event.save (monitorRun env d websites).store] := by
  refine ⟨?_, monitorLoop_length env websites d 0, rfl⟩
  rw [monitor_websites, hload]

/-- Witness for C6 at a concrete input: a two-URL run over an initially
missing store, in which the first fetch fails. -/
theorem C6_witness :
    monitor_websites cenv8 .missing [u1, u2] = .ok (monitorRun cenv8 [] [u1, u2]) ∧
    (monitorRun cenv8 [] [u1, u2]).results.length = [u1, u2].length ∧
    (monitorRun cenv8 [] [u1, u2]).trace =
      (monitorLoop cenv8 [u1, u2] [] 0).events ++
        [Event.save (monitorRun cenv8 [] [u1, u2]).store] :=
  C6_batch_completes_and_saves cenv8 .missing [u1, u2] [] rfl

end WebScan
